import Mathlib

/-!
Verification of the ColabFold local-mmseqs orchestration layer
(`colabfold/mmseqs/search_monomer.py` and `colabfold/mmseqs/search_pair.py`).

The Python modules are shallowly embedded as follows:

* numeric Python values (`int`, `float`) become `Rat`; the value `math.inf`
  never reaches a position any theorem inspects, and the one place the source
  writes an unbounded e-value into a command it does so with the string
  literal `"inf"`, kept here as a string literal;
* a command passed to the external `mmseqs` binary becomes a `List Arg`,
  where `Arg.lit` is a string literal of the source, `Arg.num x` stands for
  `str(x)` of a numeric value, `Arg.pybool b` for `str` of a boolean-ish
  value, `Arg.pyfmt1 x` for the one-decimal formatting of `x`, and `Arg.path p` for a
  `Path` argument (the `base`/`dbbase` directory prefix is elided, `p` being
  the name joined to it);
* each externally visible side-effecting step of a pipeline becomes an
  `Action`: a tool invocation (`checked := true` for `run_mmseqs`, which
  wraps `subprocess.check_call` and raises on a non-zero exit;
  `checked := false` for a bare `subprocess.run`, whose exit status is
  ignored), a `pathlib` `unlink` over a glob, or a `shutil.rmtree`;
* a run of a pipeline is the execution of its action list against an oracle
  `exec : Nat → Bool` giving the success of the i-th invocation; a checked
  invocation (and a Python-level filesystem action, whose failure raises)
  aborts the run on failure, an unchecked one never does.  `runActions`
  returns the trace of attempted actions and whether the run completed.
-/

namespace ColabFold

/-- One argument of an external `mmseqs` invocation. -/
inductive Arg where
  | lit (s : String)
  | num (q : Rat)
  | pybool (b : Bool)
  | pyfmt1 (q : Rat)
  | path (p : String)
deriving DecidableEq, Repr

/-- One externally visible step of a pipeline body. -/
inductive Action where
  | tool (checked : Bool) (args : List Arg)
  | unlinkGlob (pat : String)
  | rmtree (dir : String)
deriving DecidableEq, Repr

/-- Whether a failure of this action aborts the pipeline: `run_mmseqs`
(`subprocess.check_call`) raises on non-zero exit, and the Python-level
`unlink`/`rmtree` raise on failure; only a bare `subprocess.run` ignores
the exit status. -/
def is_checked : Action → Bool
  | .tool c _ => c
  | .unlinkGlob _ => true
  | .rmtree _ => true

/-- Whether the action removes an artifact (an `mmseqs rmdb`, a file
`unlink`, or a directory `rmtree`). -/
def is_removal : Action → Bool
  | .tool _ (.lit "rmdb" :: _) => true
  | .tool _ _ => false
  | .unlinkGlob _ => true
  | .rmtree _ => true

/-- Execute actions in order starting at invocation index `i`: a checked
action (or Python filesystem action) whose invocation fails aborts the run;
an unchecked tool invocation is attempted and its result discarded.
Returns the trace of attempted actions and whether the run completed. -/
def runFrom (exec : Nat → Bool) : Nat → List Action → List Action × Bool
  | _, [] => ([], true)
  | i, a :: rest =>
    if is_checked a && !exec i then ([a], false)
    else ((a :: (runFrom exec (i + 1) rest).1), (runFrom exec (i + 1) rest).2)

/-- Execute a pipeline body from its first invocation. -/
def runActions (exec : Nat → Bool) (acts : List Action) : List Action × Bool :=
  runFrom exec 0 acts

/-- If every invocation whose action is checked succeeds, the whole list
executes and the run completes. -/
theorem runFrom_complete (exec : Nat → Bool) :
    ∀ (xs : List Action) (i : Nat),
      (∀ k, k < xs.length → is_checked (xs.getD k (.rmtree "")) = true →
        exec (i + k) = true) →
      runFrom exec i xs = (xs, true) := by
  intro xs
  induction xs with
  | nil => intro i _; rfl
  | cons a rest ih =>
    intro i h
    have hrest : runFrom exec (i + 1) rest = (rest, true) := by
      apply ih
      intro k hk hch
      have hs : i + 1 + k = i + (k + 1) := by omega
      rw [hs]
      exact h (k + 1) (by simpa using Nat.succ_lt_succ hk) (by simpa using hch)
    rw [runFrom]
    rcases hc : is_checked a with _ | _
    · simp [hc, hrest]
    · have hx : exec i = true := by simpa using h 0 (by simp) (by simpa using hc)
      simp [hc, hx, hrest]

/-- If the invocations strictly before position `k` succeed and the checked
action at position `k` fails, the run aborts there: the trace is exactly the
first `k + 1` actions and the run does not complete. -/
theorem runFrom_abort (exec : Nat → Bool) :
    ∀ (xs : List Action) (i k : Nat), k < xs.length →
      is_checked (xs.getD k (.rmtree "")) = true →
      (∀ j, j < k → exec (i + j) = true) →
      exec (i + k) = false →
      runFrom exec i xs = (xs.take (k + 1), false) := by
  intro xs
  induction xs with
  | nil => intro i k hk; simp at hk
  | cons a rest ih =>
    intro i k hk hch hpre hf
    match k with
    | 0 =>
      have hf' : exec i = false := by simpa using hf
      have hch0 : is_checked a = true := by simpa using hch
      rw [runFrom]
      simp [hch0, hf']
    | k' + 1 =>
      have hk' : k' < rest.length := by simpa using Nat.lt_of_succ_lt_succ hk
      have hch' : is_checked (rest.getD k' (.rmtree "")) = true := by simpa using hch
      have hpre' : ∀ j, j < k' → exec ((i + 1) + j) = true := by
        intro j hj
        have hs : i + 1 + j = i + (j + 1) := by omega
        rw [hs]
        exact hpre (j + 1) (Nat.succ_lt_succ hj)
      have hf' : exec ((i + 1) + k') = false := by
        have hs : i + 1 + k' = i + (k' + 1) := by omega
        rw [hs]
        exact hf
      have hrest := ih (i + 1) k' hk' hch' hpre' hf'
      rw [runFrom]
      rcases hc : is_checked a with _ | _
      · simp [hc, hrest]
      · have hx : exec i = true := by simpa using hpre 0 (Nat.succ_pos _)
        simp [hc, hx, hrest]

/-! ## Stage parameter derivation (`mmseqs_search_monomer`, lines 61–97) -/

/-- Lines 61–66 of `mmseqs_search_monomer`: with `filter` on, `align_eval`,
`qsc` and `max_accept` are overwritten with the fixed values `10`, `0.8`
and `100000`; otherwise the caller-supplied values stay. -/
def mmseqs_search_monomer_derive (filter : Bool) (align_eval qsc max_accept : Rat) :
    Rat × Rat × Rat :=
  if filter then (10, 4 / 5, 100000) else (align_eval, qsc, max_accept)

/-- Lines 159–169 of `mmseqs_search_pair` (identically: one iteration of the
loop at lines 74–87 of `mmseqs_search_monomer`): if the database has neither
a `.idx` nor a `.idx.index` file, force `db_load_mode := 0` and use the
`_seq`/`_aln` sub-database suffixes; otherwise keep `db_load_mode` and use
the `.idx` suffix for both sub-databases. -/
def derive_index_single (db_load_mode : Rat) (idx_file idx_index_file : Bool) :
    Rat × String × String :=
  if !idx_file && !idx_index_file then (0, "_seq", "_aln")
  else (db_load_mode, ".idx", ".idx")

/-- The loop at lines 74–87 of `mmseqs_search_monomer`, over the index-file
presence of each database in `used_dbs`: `db_load_mode` and the suffix pair
are mutable across iterations; the initial suffix pair is unassigned in the
source (the loop always runs at least once) and is represented by `""`. -/
def derive_index_dbs (db_load_mode : Rat) (dbs : List (Bool × Bool)) :
    Rat × String × String :=
  dbs.foldl (fun acc db => derive_index_single acc.1 db.1 db.2)
    (db_load_mode, "", "")

/-- The `.dbtype` existence check of lines 157–158 of `mmseqs_search_pair`
(lines 75–76 of `mmseqs_search_monomer`): a missing database raises
`FileNotFoundError`; otherwise derivation proceeds. -/
def check_db_and_derive (dbtype_file idx_file idx_index_file : Bool)
    (db_load_mode : Rat) : Except String (Rat × String × String) :=
  if !dbtype_file then .error "Database does not exist"
  else .ok (derive_index_single db_load_mode idx_file idx_index_file)

/-! ## Stage command parameter bundles (lines 91–97) -/

/-- `search_param`, line 91–95. -/
def search_param (db_load_mode : Rat) (s : Option Rat) : List Arg :=
  [.lit "--num-iterations", .lit "3", .lit "--db-load-mode", .num db_load_mode,
   .lit "-a", .lit "-e", .lit "0.1", .lit "--max-seqs", .lit "10000"] ++
  (match s with
   | some sv => [.lit "-s", .pyfmt1 sv]
   | none => [.lit "--k-score", .lit "'seq:96,prof:80'"])

/-- `filter_param`, line 96. -/
def filter_param (filter : Bool) (diff : Rat) : List Arg :=
  [.lit "--filter-msa", .pybool filter, .lit "--filter-min-enable", .lit "1000",
   .lit "--diff", .num diff, .lit "--qid", .lit "0.0,0.2,0.4,0.6,0.8,1.0",
   .lit "--qsc", .lit "0", .lit "--max-seq-id", .lit "0.95"]

/-- `expand_param`, line 97. -/
def expand_param (expand_eval : Rat) (filter : Bool) : List Arg :=
  [.lit "--expansion-mode", .lit "0", .lit "-e", .num expand_eval,
   .lit "--expand-filter-clusters", .pybool filter, .lit "--max-seq-id", .lit "0.95"]

/-! ## The monomer pipeline body (`mmseqs_search_monomer`, lines 99–130) -/

/-- The explicit parameters of `mmseqs_search_monomer` (the `Path` arguments
`dbbase`, `base` and `mmseqs` locate artifacts and the binary and are elided
from the embedding; `template_db`/`metagenomic_db` only appear in the dead
`used_dbs` code, see `mmseqs_search_monomer_body_raises`). -/
structure MonomerArgs where
  uniref_db : String
  filter : Bool
  expand_eval : Rat
  align_eval : Rat
  diff : Rat
  qsc : Rat
  max_accept : Rat
  s : Option Rat
  db_load_mode : Rat
  threads : Rat
deriving DecidableEq, Repr

/-- The `align_eval` in force after the line 61–66 override. -/
def derived_align_eval (p : MonomerArgs) : Rat :=
  (mmseqs_search_monomer_derive p.filter p.align_eval p.qsc p.max_accept).1

/-- The `qsc` in force after the line 61–66 override. -/
def derived_qsc (p : MonomerArgs) : Rat :=
  (mmseqs_search_monomer_derive p.filter p.align_eval p.qsc p.max_accept).2.1

/-- The `max_accept` in force after the line 61–66 override. -/
def derived_max_accept (p : MonomerArgs) : Rat :=
  (mmseqs_search_monomer_derive p.filter p.align_eval p.qsc p.max_accept).2.2

/-- The `db_load_mode` in force after index detection on the uniref
database. -/
def derived_db_load_mode (p : MonomerArgs) (idx idxidx : Bool) : Rat :=
  (derive_index_single p.db_load_mode idx idxidx).1

/-- `dbSuffix1` after index detection on the uniref database. -/
def derived_suffix1 (p : MonomerArgs) (idx idxidx : Bool) : String :=
  (derive_index_single p.db_load_mode idx idxidx).2.1

/-- `dbSuffix2` after index detection on the uniref database. -/
def derived_suffix2 (p : MonomerArgs) (idx idxidx : Bool) : String :=
  (derive_index_single p.db_load_mode idx idxidx).2.2

/-- The ordered side-effecting steps of `mmseqs_search_monomer` after
parameter derivation (lines 99–130 of `search_monomer.py`; the identical
copy sits at lines 111–142 of `search_pair.py`).  `idx`/`idxidx` give the
presence of the uniref index files; `use_templates`/`use_env` are the
values the free global names of lines 127–130 would have to carry (the
names are unbound in the source — `mmseqs_search_monomer_body_raises`
settles that — so this list is the behavior of the body once those names
resolve). -/
def mmseqs_search_monomer_actions (p : MonomerArgs)
    (use_templates use_env : Bool) (idx idxidx : Bool) : List Action :=
  [ .tool true ([.lit "search", .path "qdb", .path p.uniref_db, .path "res",
      .path "tmp", .lit "--threads", .num p.threads] ++
      search_param (derived_db_load_mode p idx idxidx) p.s),
    .tool true [.lit "mvdb", .path "tmp/latest/profile_1", .path "prof_res"],
    .tool true [.lit "lndb", .path "qdb_h", .path "prof_res_h"],
    .tool true ([.lit "expandaln", .path "qdb",
      .path (p.uniref_db ++ derived_suffix1 p idx idxidx), .path "res",
      .path (p.uniref_db ++ derived_suffix2 p idx idxidx), .path "res_exp",
      .lit "--db-load-mode", .num (derived_db_load_mode p idx idxidx),
      .lit "--threads", .num p.threads] ++ expand_param p.expand_eval p.filter),
    .tool true [.lit "align", .path "prof_res",
      .path (p.uniref_db ++ derived_suffix1 p idx idxidx), .path "res_exp",
      .path "res_exp_realign",
      .lit "--db-load-mode", .num (derived_db_load_mode p idx idxidx),
      .lit "-e", .num (derived_align_eval p),
      .lit "--max-accept", .num (derived_max_accept p),
      .lit "--threads", .num p.threads, .lit "--alt-ali", .lit "10", .lit "-a"],
    .tool true [.lit "filterresult", .path "qdb",
      .path (p.uniref_db ++ derived_suffix1 p idx idxidx),
      .path "res_exp_realign", .path "res_exp_realign_filter",
      .lit "--db-load-mode", .num (derived_db_load_mode p idx idxidx),
      .lit "--qid", .lit "0", .lit "--qsc", .num (derived_qsc p),
      .lit "--diff", .lit "0", .lit "--threads", .num p.threads,
      .lit "--max-seq-id", .lit "1.0", .lit "--filter-min-enable", .lit "100"],
    .tool true ([.lit "result2msa", .path "qdb",
      .path (p.uniref_db ++ derived_suffix1 p idx idxidx),
      .path "res_exp_realign_filter", .path "uniref.a3m",
      .lit "--msa-format-mode", .lit "6",
      .lit "--db-load-mode", .num (derived_db_load_mode p idx idxidx),
      .lit "--threads", .num p.threads] ++ filter_param p.filter p.diff),
    .tool false [.lit "rmdb", .path "res_exp"],
    .tool false [.lit "rmdb", .path "res"],
    .tool true [.lit "mvdb", .path "uniref.a3m", .path "final.a3m"],
    .tool true [.lit "unpackdb", .path "final.a3m", .path ".",
      .lit "--unpack-name-mode", .lit "0", .lit "--unpack-suffix", .lit ".a3m"],
    .tool true [.lit "rmdb", .path "final.a3m"],
    .tool true [.lit "rmdb", .path "uniref.a3m"],
    .tool true [.lit "rmdb", .path "res"],
    .unlinkGlob "prof_res*",
    .rmtree "tmp" ] ++
  (if use_templates then [.rmtree "tmp2"] else []) ++
  (if use_env then [.rmtree "tmp3"] else [])

/-! ## The pairing pipeline body (`mmseqs_search_pair`, lines 186–200) -/

/-- The parameters of `mmseqs_search_pair` (`dbbase`, `base`, `mmseqs`
elided as above; `s` only feeds the dead, commented-out search stage). -/
structure PairArgs where
  uniref_db : String
  s : Option Rat
  threads : Rat
  db_load_mode : Rat
  pairing_strategy : Rat
deriving DecidableEq, Repr

/-- The `db_load_mode` in force in `mmseqs_search_pair` after index
detection (lines 159–169). -/
def pair_db_load_mode (p : PairArgs) (idx idxidx : Bool) : Rat :=
  (derive_index_single p.db_load_mode idx idxidx).1

/-- `dbSuffix1` of `mmseqs_search_pair` after index detection. -/
def pair_suffix1 (p : PairArgs) (idx idxidx : Bool) : String :=
  (derive_index_single p.db_load_mode idx idxidx).2.1

/-- The ordered side-effecting steps of `mmseqs_search_pair` (lines 186–200
of `search_pair.py`): two `pairaln` passes around a backtrace `align`, the
paired-MSA formatting and unpacking, then the unconditional cleanup —
every step, removals included, goes through `run_mmseqs`
(`subprocess.check_call`), and the temp directory is removed last. -/
def mmseqs_search_pair_actions (p : PairArgs) (idx idxidx : Bool) : List Action :=
  [ .tool true [.lit "pairaln", .path "qdb", .path p.uniref_db,
      .path "res_exp_realign", .path "res_exp_realign_pair",
      .lit "--db-load-mode", .num (pair_db_load_mode p idx idxidx),
      .lit "--pairing-mode", .num p.pairing_strategy,
      .lit "--pairing-dummy-mode", .lit "0", .lit "--threads", .num p.threads],
    .tool true [.lit "align", .path "qdb",
      .path (p.uniref_db ++ pair_suffix1 p idx idxidx),
      .path "res_exp_realign_pair", .path "res_exp_realign_pair_bt",
      .lit "--db-load-mode", .num (pair_db_load_mode p idx idxidx),
      .lit "-e", .lit "inf", .lit "-a", .lit "--threads", .num p.threads],
    .tool true [.lit "pairaln", .path "qdb", .path p.uniref_db,
      .path "res_exp_realign_pair_bt", .path "res_final",
      .lit "--db-load-mode", .num (pair_db_load_mode p idx idxidx),
      .lit "--pairing-mode", .num p.pairing_strategy,
      .lit "--pairing-dummy-mode", .lit "1", .lit "--threads", .num p.threads],
    .tool true [.lit "result2msa", .path "qdb",
      .path (p.uniref_db ++ pair_suffix1 p idx idxidx),
      .path "res_final", .path "pair.a3m",
      .lit "--db-load-mode", .num (pair_db_load_mode p idx idxidx),
      .lit "--msa-format-mode", .lit "5", .lit "--threads", .num p.threads],
    .tool true [.lit "unpackdb", .path "pair.a3m", .path ".",
      .lit "--unpack-name-mode", .lit "0", .lit "--unpack-suffix", .lit ".paired.a3m"],
    .tool true [.lit "rmdb", .path "qdb"],
    .tool true [.lit "rmdb", .path "qdb_h"],
    .tool true [.lit "rmdb", .path "res"],
    .tool true [.lit "rmdb", .path "res_exp"],
    .tool true [.lit "rmdb", .path "res_exp_realign"],
    .tool true [.lit "rmdb", .path "res_exp_realign_pair"],
    .tool true [.lit "rmdb", .path "res_exp_realign_pair_bt"],
    .tool true [.lit "rmdb", .path "res_final"],
    .tool true [.lit "rmdb", .path "pair.a3m"],
    .rmtree "tmp" ]

/-- The argument list of a tool action (`[]` for Python-level actions). -/
def action_args : Action → List Arg
  | .tool _ args => args
  | .unlinkGlob _ => []
  | .rmtree _ => []

/-- How many times a given string literal occurs among the arguments. -/
def count_lit (s : String) (args : List Arg) : Nat :=
  args.foldl (fun n a => match a with
    | .lit t => if t = s then n + 1 else n
    | _ => n) 0

/-! ## Query Normalizer (`main`, lines 191–206 of `search_monomer.py`) -/

/-- Lines 197–200: walk the raw sequences in order, appending each sequence
to `query_seqs_unique` on its first occurrence. -/
def query_seqs_unique (query_sequences : List String) : List String :=
  query_sequences.foldl (fun acc x => if x ∈ acc then acc else acc ++ [x]) []

/-- Python's `list.index`: position of the first occurrence (the source only
calls it on members, where the two semantics agree). -/
def py_index (x : String) : List String → Nat
  | [] => 0
  | y :: ys => if y = x then 0 else py_index x ys + 1

/-- One iteration of the loop at lines 202–204:
`query_seqs_cardinality[query_seqs_unique.index(seq)] += 1`. -/
def card_update (uniq : List String) (card : List Nat) (seq : String) : List Nat :=
  card.set (py_index seq uniq) (card.getD (py_index seq uniq) 0 + 1)

/-- Lines 201–204: start from `[0] * len(query_seqs_unique)` and bump the
entry of each raw occurrence. -/
def query_seqs_cardinality (query_sequences : List String) : List Nat :=
  query_sequences.foldl (card_update (query_seqs_unique query_sequences))
    (List.replicate (query_seqs_unique query_sequences).length 0)

theorem mem_dedup_fold (qs : List String) :
    ∀ (acc : List String) (x : String),
      (x ∈ qs.foldl (fun acc x => if x ∈ acc then acc else acc ++ [x]) acc ↔
        x ∈ acc ∨ x ∈ qs) := by
  induction qs with
  | nil => intro acc x; simp
  | cons a qs ih =>
    intro acc x
    by_cases ha : a ∈ acc
    · rw [List.foldl_cons, if_pos ha, ih]
      constructor
      · rintro (hx | hx)
        · exact Or.inl hx
        · exact Or.inr (List.mem_cons_of_mem _ hx)
      · rintro (hx | hx)
        · exact Or.inl hx
        · rcases List.mem_cons.mp hx with rfl | hx
          · exact Or.inl ha
          · exact Or.inr hx
    · rw [List.foldl_cons, if_neg ha, ih]
      simp only [List.mem_append, List.mem_singleton, List.mem_cons]
      tauto

theorem nodup_dedup_fold (qs : List String) :
    ∀ (acc : List String), acc.Nodup →
      (qs.foldl (fun acc x => if x ∈ acc then acc else acc ++ [x]) acc).Nodup := by
  induction qs with
  | nil => intro acc h; exact h
  | cons a qs ih =>
    intro acc h
    by_cases ha : a ∈ acc
    · rw [List.foldl_cons, if_pos ha]; exact ih acc h
    · rw [List.foldl_cons, if_neg ha]
      apply ih
      apply List.Nodup.append h (List.nodup_singleton a)
      intro x hx hx'
      rcases List.mem_singleton.mp hx' with rfl
      exact ha hx

/-- Every distinct sequence list entry is free of duplicates
(`query_seqs_unique` deduplicates). -/
theorem query_seqs_unique_nodup (qs : List String) :
    (query_seqs_unique qs).Nodup :=
  nodup_dedup_fold qs [] List.nodup_nil

theorem mem_query_seqs_unique (qs : List String) (x : String) :
    x ∈ query_seqs_unique qs ↔ x ∈ qs := by
  rw [query_seqs_unique, mem_dedup_fold]
  simp

theorem py_index_lt_length {x : String} : ∀ {l : List String}, x ∈ l →
    py_index x l < l.length := by
  intro l
  induction l with
  | nil => intro h; simp at h
  | cons y ys ih =>
    intro h
    by_cases hy : y = x
    · simp [py_index, hy]
    · rcases List.mem_cons.mp h with rfl | h'
      · exact absurd rfl hy
      · simpa [py_index, hy] using ih h'

theorem getD_py_index {x : String} : ∀ {l : List String}, x ∈ l →
    l.getD (py_index x l) "" = x := by
  intro l
  induction l with
  | nil => intro h; simp at h
  | cons y ys ih =>
    intro h
    by_cases hy : y = x
    · simp [py_index, hy]
    · rcases List.mem_cons.mp h with rfl | h'
      · exact absurd rfl hy
      · simpa [py_index, hy] using ih h'

theorem py_index_getD {l : List String} (hn : l.Nodup) :
    ∀ i, i < l.length → py_index (l.getD i "") l = i := by
  induction l with
  | nil => intro i hi; simp at hi
  | cons y ys ih =>
    intro i hi
    match i with
    | 0 => simp [py_index]
    | i' + 1 =>
      have hi' : i' < ys.length := by simpa using Nat.lt_of_succ_lt_succ hi
      have hmem : ys.getD i' "" ∈ ys := by
        have := List.getD_eq_getElem?_getD ys i' ""
        rw [this, List.getElem?_eq_getElem hi']
        simp only [Option.getD_some]
        exact List.getElem_mem hi'
      have hy : y ≠ ys.getD i' "" := by
        intro hEq
        exact (List.nodup_cons.mp hn).1 (hEq ▸ hmem)
      have := ih (List.nodup_cons.mp hn).2 i' hi'
      simp only [List.getD_cons_succ, py_index]
      rw [if_neg hy, this]

theorem getD_set_self (l : List Nat) : ∀ (i : Nat) (v : Nat), i < l.length →
    (l.set i v).getD i 0 = v := by
  induction l with
  | nil => intro i v h; simp at h
  | cons a l ih =>
    intro i v h
    match i with
    | 0 => rfl
    | i' + 1 =>
      simp only [List.set, List.getD_cons_succ]
      exact ih i' v (by simpa using Nat.lt_of_succ_lt_succ h)

theorem getD_set_ne (l : List Nat) : ∀ (i j : Nat) (v : Nat), i ≠ j →
    (l.set i v).getD j 0 = l.getD j 0 := by
  induction l with
  | nil => intro i j v _; simp
  | cons a l ih =>
    intro i j v hij
    match i, j with
    | 0, 0 => exact absurd rfl hij
    | 0, j' + 1 => rfl
    | i' + 1, 0 => rfl
    | i' + 1, j' + 1 =>
      have := ih i' j' v (fun h => hij (by rw [h]))
      simpa [List.set, List.getD_cons_succ] using this

theorem sum_set_getD_add_one (l : List Nat) : ∀ (i : Nat), i < l.length →
    (l.set i (l.getD i 0 + 1)).sum = l.sum + 1 := by
  induction l with
  | nil => intro i h; simp at h
  | cons a l ih =>
    intro i h
    match i with
    | 0 => simp [List.set]; omega
    | i' + 1 =>
      have := ih i' (by simpa using Nat.lt_of_succ_lt_succ h)
      simp only [List.set, List.getD_cons_succ, List.sum_cons, this]
      omega

theorem card_fold_length (u : List String) :
    ∀ (qs : List String) (c : List Nat),
      (qs.foldl (card_update u) c).length = c.length := by
  intro qs
  induction qs with
  | nil => intro c; rfl
  | cons a qs ih =>
    intro c
    rw [List.foldl_cons, ih]
    simp [card_update]

theorem card_fold_getD {u : List String} (hu : u.Nodup) :
    ∀ (qs : List String) (c : List Nat), c.length = u.length →
      (∀ x ∈ qs, x ∈ u) → ∀ i, i < u.length →
      (qs.foldl (card_update u) c).getD i 0 =
        c.getD i 0 + qs.count (u.getD i "") := by
  intro qs
  induction qs with
  | nil => intro c _ _ i _; simp
  | cons a qs ih =>
    intro c hc hx i hi
    have ha : a ∈ u := hx a (List.mem_cons_self a qs)
    have hx' : ∀ x ∈ qs, x ∈ u := fun x h => hx x (List.mem_cons_of_mem _ h)
    have hlen' : (card_update u c a).length = u.length := by
      simp [card_update, hc]
    rw [List.foldl_cons, ih (card_update u c a) hlen' hx' i hi]
    by_cases heq : u.getD i "" = a
    · have hpi : py_index a u = i := by
        rw [← heq]; exact py_index_getD hu i hi
      have hset : (card_update u c a).getD i 0 = c.getD i 0 + 1 := by
        rw [card_update, hpi]
        exact getD_set_self c i _ (hc ▸ hi)
      rw [hset, List.count_cons]
      simp only [heq, beq_self_eq_true, if_true]
      omega
    · have hpi : py_index a u ≠ i := by
        intro hEq
        apply heq
        rw [← hEq]
        exact (getD_py_index ha).symm ▸ rfl
      have hset : (card_update u c a).getD i 0 = c.getD i 0 := by
        rw [card_update]
        exact getD_set_ne c _ i _ hpi
      rw [hset, List.count_cons]
      have hbeq : (a == u.getD i "") = false := by
        simpa using fun h : a = u.getD i "" => heq h.symm
      rw [hbeq]
      simp

theorem card_fold_sum {u : List String} :
    ∀ (qs : List String) (c : List Nat), c.length = u.length →
      (∀ x ∈ qs, x ∈ u) →
      (qs.foldl (card_update u) c).sum = c.sum + qs.length := by
  intro qs
  induction qs with
  | nil => intro c _ _; simp
  | cons a qs ih =>
    intro c hc hx
    have ha : a ∈ u := hx a (List.mem_cons_self a qs)
    have hidx : py_index a u < c.length := hc ▸ py_index_lt_length ha
    have hx' : ∀ x ∈ qs, x ∈ u := fun x h => hx x (List.mem_cons_of_mem _ h)
    have hlen' : (card_update u c a).length = u.length := by
      simp [card_update, hc]
    rw [List.foldl_cons, ih (card_update u c a) hlen' hx']
    rw [card_update, sum_set_getD_add_one c _ hidx]
    simp [List.length_cons]
    omega

/-- The cardinality list has the same length as the deduplicated sequence
list. -/
theorem query_seqs_cardinality_length (qs : List String) :
    (query_seqs_cardinality qs).length = (query_seqs_unique qs).length := by
  rw [query_seqs_cardinality, card_fold_length]
  simp

/-- Entry `i` of the cardinality list counts the occurrences of the `i`-th
distinct sequence in the raw list. -/
theorem query_seqs_cardinality_getD (qs : List String) (i : Nat)
    (hi : i < (query_seqs_unique qs).length) :
    (query_seqs_cardinality qs).getD i 0 =
      qs.count ((query_seqs_unique qs).getD i "") := by
  rw [query_seqs_cardinality,
    card_fold_getD (query_seqs_unique_nodup qs) qs _ (by simp)
      (fun x hx => (mem_query_seqs_unique qs x).mpr hx) i hi]
  simp

/-- The cardinalities of a job sum to the raw sequence count of the job. -/
theorem query_seqs_cardinality_sum (qs : List String) :
    (query_seqs_cardinality qs).sum = qs.length := by
  rw [query_seqs_cardinality,
    card_fold_sum qs _ (by simp)
      (fun x hx => (mem_query_seqs_unique qs x).mpr hx)]
  simp

/-! ## Canonical query file serialization (`main`, lines 209–219) -/

/-- Lines 216–219, for one job: the `j`-th distinct sequence of the job is
written under the integer header `101 + j` (`query_seq_headername`). -/
def job_header_records (query_sequences : List String) : List (Nat × String) :=
  query_sequences.enum.map (fun je => (101 + je.1, je.2))

/-- Lines 210–219, over all jobs: each job's deduplicated sequences are
written in turn, the header counter restarting from `101` per job (the
second component of a job is its deduplicated sequence list). -/
def query_fas_records (queries_unique : List (String × List String)) :
    List (Nat × String) :=
  (queries_unique.map (fun jb => job_header_records jb.2)).flatten

/-! ## Name resolution in `mmseqs_search_monomer` (lines 61–99)

`use_templates` and `use_env` are read at lines 69/71 (and 127/129) but are
neither parameters of the function, nor assigned in its body, nor defined at
module level, nor Python builtins, so evaluating the body raises `NameError`
at line 69 before the database validation of lines 74–76 and before any
`run_mmseqs` call.  The embedding lists, per statement, the names the
statement reads and the externally visible events it would perform, and runs
the statements in order, stopping at the first unresolvable name. -/

/-- One statement of the function body: the source line it starts on, the
names it reads, how many database validations and how many external tool
invocations it performs when executed. -/
structure BodyStmt where
  line : Nat
  refs : List String
  validations : Nat
  invocations : Nat
deriving DecidableEq, Repr

/-- Run statements in order; the first statement reading a name outside
`bound` raises `NameError` naming it, and nothing after (nor of) that
statement executes.  Returns the validations performed, the invocations
performed, and the offending name, if any. -/
def run_body (bound : List String) : List BodyStmt → Nat × Nat × Option String
  | [] => (0, 0, none)
  | s :: rest =>
    match s.refs.find? (fun n => !bound.contains n) with
    | some n => (0, 0, some n)
    | none =>
      let r := run_body bound rest
      (s.validations + r.1, s.invocations + r.2.1, r.2.2)

/-- The parameter names of `mmseqs_search_monomer` (lines 36–54 of
`search_monomer.py`, lines 48–66 of `search_pair.py`; identical lists). -/
def mmseqs_search_monomer_param_names : List String :=
  ["dbbase", "base", "uniref_db", "template_db", "metagenomic_db", "mmseqs",
   "filter", "expand_eval", "align_eval", "diff", "qsc", "max_accept", "s",
   "db_load_mode", "threads"]

/-- The module-level names of `search_pair.py` (the executable module
holding this function; `search_monomer.py` adds only `main`): the imports,
`logger`, and the three function definitions. -/
def module_level_names : List String :=
  ["logging", "math", "os", "shutil", "subprocess", "ArgumentParser", "Path",
   "List", "Union", "get_queries", "msa_to_str", "safe_filename", "logger",
   "run_mmseqs", "mmseqs_search_monomer", "mmseqs_search_pair", "main",
   "__name__", "__doc__", "__file__"]

/-- A sample of Python builtins visible from any function body (none of them
is `use_templates` or `use_env`). -/
def python_builtin_names : List String :=
  ["str", "int", "float", "bool", "len", "range", "enumerate", "isinstance",
   "open", "print", "list", "dict", "set", "FileNotFoundError", "Exception"]

/-- The local names `mmseqs_search_monomer` assigns somewhere in its body
(each is bound by the time a later statement reads it on the path the
statements take). -/
def mmseqs_search_monomer_local_names : List String :=
  ["used_dbs", "db", "dbSuffix1", "dbSuffix2", "search_param", "filter_param",
   "expand_param", "file"]

/-- Every name resolvable inside the body of `mmseqs_search_monomer`. -/
def mmseqs_search_monomer_bound_names : List String :=
  mmseqs_search_monomer_param_names ++ module_level_names ++
    python_builtin_names ++ mmseqs_search_monomer_local_names

/-- The statements of `mmseqs_search_monomer`'s body, in order, with the
names each reads and the events each performs (line numbers of
`search_monomer.py`; the copy in `search_pair.py` is shifted by 12 lines
but statement-for-statement identical).  Lines 99–120 each invoke the
external tool once; lines 74–76 validate each used database. -/
def mmseqs_search_monomer_body : List BodyStmt :=
  [ ⟨61, ["filter"], 0, 0⟩,
    ⟨68, ["uniref_db"], 0, 0⟩,
    ⟨69, ["use_templates"], 0, 0⟩,
    ⟨70, ["used_dbs", "template_db"], 0, 0⟩,
    ⟨71, ["use_env"], 0, 0⟩,
    ⟨72, ["used_dbs", "metagenomic_db"], 0, 0⟩,
    ⟨74, ["used_dbs", "dbbase", "db", "db_load_mode", "dbSuffix1", "dbSuffix2",
          "logger", "FileNotFoundError"], 1, 0⟩,
    ⟨91, ["db_load_mode", "s", "search_param"], 0, 0⟩,
    ⟨96, ["filter", "diff"], 0, 0⟩,
    ⟨97, ["expand_eval", "filter"], 0, 0⟩,
    ⟨99, ["run_mmseqs", "mmseqs", "base", "dbbase", "uniref_db", "threads",
          "search_param"], 0, 1⟩,
    ⟨100, ["run_mmseqs", "mmseqs", "base"], 0, 1⟩,
    ⟨101, ["run_mmseqs", "mmseqs", "base"], 0, 1⟩,
    ⟨102, ["run_mmseqs", "mmseqs", "base", "dbbase", "uniref_db", "dbSuffix1",
           "dbSuffix2", "db_load_mode", "threads", "expand_param"], 0, 1⟩,
    ⟨103, ["run_mmseqs", "mmseqs", "base", "dbbase", "uniref_db", "dbSuffix1",
           "db_load_mode", "align_eval", "max_accept", "threads"], 0, 1⟩,
    ⟨104, ["run_mmseqs", "mmseqs", "base", "dbbase", "uniref_db", "dbSuffix1",
           "db_load_mode", "qsc", "threads"], 0, 1⟩,
    ⟨108, ["run_mmseqs", "mmseqs", "base", "dbbase", "uniref_db", "dbSuffix1",
           "db_load_mode", "threads", "filter_param"], 0, 1⟩,
    ⟨113, ["subprocess", "mmseqs", "base"], 0, 1⟩,
    ⟨114, ["subprocess", "mmseqs", "base"], 0, 1⟩,
    ⟨116, ["run_mmseqs", "mmseqs", "base"], 0, 1⟩,
    ⟨117, ["run_mmseqs", "mmseqs", "base"], 0, 1⟩,
    ⟨118, ["run_mmseqs", "mmseqs", "base"], 0, 1⟩,
    ⟨119, ["run_mmseqs", "mmseqs", "base"], 0, 1⟩,
    ⟨120, ["run_mmseqs", "mmseqs", "base"], 0, 1⟩,
    ⟨124, ["base", "file"], 0, 0⟩,
    ⟨126, ["shutil", "base"], 0, 0⟩,
    ⟨127, ["use_templates"], 0, 0⟩,
    ⟨129, ["use_env"], 0, 0⟩ ]

/-! ## Well-formedness of `search_monomer.py` (`main`, lines 186–188)

A minimal model of Python's block structure: each logical line carries its
physical line number, its indentation, and whether it ends with `:` (opens a
block).  An indentation increase is legal only right after a block opener;
a decrease must return to an enclosing indentation level.  The checker
returns the first offending physical line. -/

/-- One logical line of source: physical line number, indentation column,
whether the line opens a block (`:`-terminated compound statement header). -/
structure SrcLine where
  lineno : Nat
  indent : Nat
  opens : Bool
deriving DecidableEq, Repr

/-- Walk the logical lines with a stack of enclosing indentation levels.
`expect` records that the previous line opened a block, so the next line
must be indented deeper.  Returns the line number of the first
`IndentationError`, or `none`. -/
def check_indent_from (stack : List Nat) (expect : Bool) :
    List SrcLine → Option Nat
  | [] => none
  | l :: rest =>
    let top := stack.headD 0
    if expect then
      if top < l.indent then check_indent_from (l.indent :: stack) l.opens rest
      else some l.lineno
    else if top < l.indent then some l.lineno
    else if l.indent = top then check_indent_from stack l.opens rest
    else
      match stack.dropWhile (fun t => l.indent < t) with
      | [] => some l.lineno
      | t :: stack' =>
        if l.indent = t then check_indent_from (t :: stack') l.opens rest
        else some l.lineno

/-- Check a sequence of logical lines starting at top level. -/
def check_indent (lines : List SrcLine) : Option Nat :=
  check_indent_from [0] false lines

/-- The logical lines of `search_monomer.py` from `def main():` (line 133)
through the dedup loop (line 206): one entry per statement, multi-line
statements carrying the line they start on.  Line 187 is the string literal
`"""Reads a directory of fasta files ..."""` sitting one level deeper than
the `get_queries` assignment of line 186 without a block opener before
it. -/
def search_monomer_main_lines : List SrcLine :=
  [ ⟨133, 0, true⟩,
    ⟨134, 4, false⟩, ⟨135, 4, false⟩, ⟨140, 4, false⟩, ⟨145, 4, false⟩,
    ⟨148, 4, false⟩, ⟨156, 4, false⟩, ⟨159, 4, false⟩, ⟨160, 4, false⟩,
    ⟨169, 4, false⟩, ⟨170, 4, false⟩, ⟨176, 4, false⟩, ⟨177, 4, false⟩,
    ⟨178, 4, false⟩, ⟨179, 4, false⟩, ⟨180, 4, false⟩, ⟨181, 4, false⟩,
    ⟨182, 4, false⟩, ⟨183, 4, false⟩, ⟨184, 4, false⟩,
    ⟨186, 4, false⟩,
    ⟨187, 8, false⟩,
    ⟨191, 4, false⟩,
    ⟨192, 4, true⟩,
    ⟨194, 8, false⟩, ⟨197, 8, false⟩,
    ⟨198, 8, true⟩, ⟨199, 12, true⟩, ⟨200, 16, false⟩,
    ⟨201, 8, false⟩,
    ⟨202, 8, true⟩, ⟨203, 12, false⟩, ⟨204, 12, false⟩,
    ⟨206, 8, false⟩ ]

/-- Whether the module compiles: Python parses a module as a whole, so an
indentation error anywhere in it prevents the import outright. -/
def search_monomer_module_parses : Bool :=
  (check_indent search_monomer_main_lines).isNone

/-! ## Claim theorems -/

/-- C1: with `filter` true, `align_eval`, `qsc` and `max_accept` are `10`,
`0.8` and `100000` in all subsequent stage invocations (the realign `align`
takes `-e align_eval --max-accept max_accept`, the `filterresult` takes
`--qsc qsc`) regardless of the caller-supplied values; with `filter` false
the caller-supplied values are used unchanged. -/
theorem monomer_filter_overrides_align_qsc_max_accept
    (align_eval qsc max_accept : Rat) :
    mmseqs_search_monomer_derive true align_eval qsc max_accept =
      (10, 4 / 5, 100000) ∧
    mmseqs_search_monomer_derive false align_eval qsc max_accept =
      (align_eval, qsc, max_accept) ∧
    (∀ (p : MonomerArgs) (ut ue idx idxidx : Bool), p.filter = true →
      Action.tool true [.lit "align", .path "prof_res",
        .path (p.uniref_db ++ derived_suffix1 p idx idxidx), .path "res_exp",
        .path "res_exp_realign",
        .lit "--db-load-mode", .num (derived_db_load_mode p idx idxidx),
        .lit "-e", .num 10, .lit "--max-accept", .num 100000,
        .lit "--threads", .num p.threads, .lit "--alt-ali", .lit "10",
        .lit "-a"] ∈ mmseqs_search_monomer_actions p ut ue idx idxidx ∧
      Action.tool true [.lit "filterresult", .path "qdb",
        .path (p.uniref_db ++ derived_suffix1 p idx idxidx),
        .path "res_exp_realign", .path "res_exp_realign_filter",
        .lit "--db-load-mode", .num (derived_db_load_mode p idx idxidx),
        .lit "--qid", .lit "0", .lit "--qsc", .num (4 / 5),
        .lit "--diff", .lit "0", .lit "--threads", .num p.threads,
        .lit "--max-seq-id", .lit "1.0", .lit "--filter-min-enable",
        .lit "100"] ∈ mmseqs_search_monomer_actions p ut ue idx idxidx) ∧
    (∀ (p : MonomerArgs) (ut ue idx idxidx : Bool), p.filter = false →
      Action.tool true [.lit "align", .path "prof_res",
        .path (p.uniref_db ++ derived_suffix1 p idx idxidx), .path "res_exp",
        .path "res_exp_realign",
        .lit "--db-load-mode", .num (derived_db_load_mode p idx idxidx),
        .lit "-e", .num p.align_eval, .lit "--max-accept", .num p.max_accept,
        .lit "--threads", .num p.threads, .lit "--alt-ali", .lit "10",
        .lit "-a"] ∈ mmseqs_search_monomer_actions p ut ue idx idxidx ∧
      Action.tool true [.lit "filterresult", .path "qdb",
        .path (p.uniref_db ++ derived_suffix1 p idx idxidx),
        .path "res_exp_realign", .path "res_exp_realign_filter",
        .lit "--db-load-mode", .num (derived_db_load_mode p idx idxidx),
        .lit "--qid", .lit "0", .lit "--qsc", .num p.qsc,
        .lit "--diff", .lit "0", .lit "--threads", .num p.threads,
        .lit "--max-seq-id", .lit "1.0", .lit "--filter-min-enable",
        .lit "100"] ∈ mmseqs_search_monomer_actions p ut ue idx idxidx) := by
  refine ⟨rfl, rfl, ?_, ?_⟩
  · intro p ut ue idx idxidx hf
    have h1 : derived_align_eval p = 10 := by
      simp [derived_align_eval, mmseqs_search_monomer_derive, hf]
    have h2 : derived_max_accept p = 100000 := by
      simp [derived_max_accept, mmseqs_search_monomer_derive, hf]
    have h3 : derived_qsc p = 4 / 5 := by
      simp [derived_qsc, mmseqs_search_monomer_derive, hf]
    constructor
    · rw [← h1, ← h2, mmseqs_search_monomer_actions]
      apply List.mem_append_left
      apply List.mem_append_left
      exact List.mem_cons_of_mem _ (List.mem_cons_of_mem _
        (List.mem_cons_of_mem _ (List.mem_cons_of_mem _ (List.mem_cons_self _ _))))
    · rw [← h3, mmseqs_search_monomer_actions]
      apply List.mem_append_left
      apply List.mem_append_left
      exact List.mem_cons_of_mem _ (List.mem_cons_of_mem _
        (List.mem_cons_of_mem _ (List.mem_cons_of_mem _ (List.mem_cons_of_mem _
          (List.mem_cons_self _ _)))))
  · intro p ut ue idx idxidx hf
    have h1 : derived_align_eval p = p.align_eval := by
      simp [derived_align_eval, mmseqs_search_monomer_derive, hf]
    have h2 : derived_max_accept p = p.max_accept := by
      simp [derived_max_accept, mmseqs_search_monomer_derive, hf]
    have h3 : derived_qsc p = p.qsc := by
      simp [derived_qsc, mmseqs_search_monomer_derive, hf]
    constructor
    · rw [← h1, ← h2, mmseqs_search_monomer_actions]
      apply List.mem_append_left
      apply List.mem_append_left
      exact List.mem_cons_of_mem _ (List.mem_cons_of_mem _
        (List.mem_cons_of_mem _ (List.mem_cons_of_mem _ (List.mem_cons_self _ _))))
    · rw [← h3, mmseqs_search_monomer_actions]
      apply List.mem_append_left
      apply List.mem_append_left
      exact List.mem_cons_of_mem _ (List.mem_cons_of_mem _
        (List.mem_cons_of_mem _ (List.mem_cons_of_mem _ (List.mem_cons_of_mem _
          (List.mem_cons_self _ _)))))

/-- C1 witness: at a caller configuration with `filter = true` and
`align_eval = 99`, `qsc = 7`, `max_accept = 5`, the realign invocation of
the pipeline still carries `-e 10 --max-accept 100000`. -/
theorem monomer_filter_overrides_witness :
    Action.tool true [.lit "align", .path "prof_res",
      .path ("uniref30_2302_db" ++
        derived_suffix1 ⟨"uniref30_2302_db", true, 1, 99, 3000, 7, 5, some 8, 2, 32⟩ true true),
      .path "res_exp", .path "res_exp_realign",
      .lit "--db-load-mode",
      .num (derived_db_load_mode ⟨"uniref30_2302_db", true, 1, 99, 3000, 7, 5, some 8, 2, 32⟩ true true),
      .lit "-e", .num 10, .lit "--max-accept", .num 100000,
      .lit "--threads", .num (32 : Rat), .lit "--alt-ali", .lit "10",
      .lit "-a"] ∈
      mmseqs_search_monomer_actions
        ⟨"uniref30_2302_db", true, 1, 99, 3000, 7, 5, some 8, 2, 32⟩
        false false true true :=
  ((monomer_filter_overrides_align_qsc_max_accept 99 7 5).2.2.1
    ⟨"uniref30_2302_db", true, 1, 99, 3000, 7, 5, some 8, 2, 32⟩
    false false true true rfl).1

/-- C2: for a reference database whose `.idx` and `.idx.index` files are
both absent, the derived `db_load_mode` is `0` and the `_seq`/`_aln`
suffix pair is selected, without raising (only a missing `.dbtype` raises);
if at least one index file is present, `db_load_mode` keeps the caller's
value and the suffix `.idx` is used for both sub-databases.  This holds for
the per-database branch (`mmseqs_search_pair`, lines 157–169) and for the
`used_dbs` loop of `mmseqs_search_monomer` run on a single database. -/
theorem db_index_detection (db_load_mode : Rat) (idx idxidx : Bool) :
    check_db_and_derive true idx idxidx db_load_mode =
      .ok (if idx || idxidx then (db_load_mode, ".idx", ".idx")
           else (0, "_seq", "_aln")) ∧
    derive_index_single db_load_mode idx idxidx =
      (if idx || idxidx then (db_load_mode, ".idx", ".idx")
       else (0, "_seq", "_aln")) ∧
    derive_index_dbs db_load_mode [(idx, idxidx)] =
      (if idx || idxidx then (db_load_mode, ".idx", ".idx")
       else (0, "_seq", "_aln")) := by
  rcases idx <;> rcases idxidx <;>
    simp [check_db_and_derive, derive_index_single, derive_index_dbs]

/-- C3: the Query Normalizer deduplicates in first-seen order: the distinct
list has no duplicates, the cardinality list has equal length, its `i`-th
entry counts the occurrences of the `i`-th distinct sequence in the raw
list, and the cardinalities sum to the raw length; on
`["AAA", "BBB", "AAA"]` it yields `["AAA", "BBB"]` with cardinality
`[2, 1]`. -/
theorem query_normalizer_dedup_cardinality :
    (∀ qs : List String,
      (query_seqs_unique qs).Nodup ∧
      (query_seqs_cardinality qs).length = (query_seqs_unique qs).length ∧
      (∀ i, i < (query_seqs_unique qs).length →
        (query_seqs_cardinality qs).getD i 0 =
          qs.count ((query_seqs_unique qs).getD i "")) ∧
      (query_seqs_cardinality qs).sum = qs.length) ∧
    query_seqs_unique ["AAA", "BBB", "AAA"] = ["AAA", "BBB"] ∧
    query_seqs_cardinality ["AAA", "BBB", "AAA"] = [2, 1] := by
  refine ⟨fun qs => ⟨query_seqs_unique_nodup qs,
    query_seqs_cardinality_length qs,
    fun i hi => query_seqs_cardinality_getD qs i hi,
    query_seqs_cardinality_sum qs⟩, by decide, by decide⟩

/-- C3 witness: the first cardinality entry of the scenario job counts the
occurrences of `"AAA"` in the raw list. -/
theorem query_normalizer_dedup_cardinality_witness :
    (query_seqs_cardinality ["AAA", "BBB", "AAA"]).getD 0 0 =
      List.count ((query_seqs_unique ["AAA", "BBB", "AAA"]).getD 0 "")
        ["AAA", "BBB", "AAA"] :=
  (query_normalizer_dedup_cardinality.1 ["AAA", "BBB", "AAA"]).2.2.1 0
    (by decide)

/-- C4: the monomer pipeline's fifth invocation (index 4) is the REALIGN
`align` call; if the four invocations before it succeed and it exits
non-zero, the run aborts with exactly the first five stage invocations
attempted — each once, so no retry — and none of `filterresult`,
`result2msa`, the renames, `unpackdb`, any `rmdb`, the `prof_res*` unlink or
a temp-directory `rmtree` appears in the trace (first five actions are no
removals), so all artifacts produced up to REALIGN stay in place. -/
theorem realign_failure_aborts_monomer_pipeline (p : MonomerArgs)
    (ut ue idx idxidx : Bool) :
    (∀ (k : Nat) (exec : Nat → Bool),
      k < (mmseqs_search_monomer_actions p ut ue idx idxidx).length →
      is_checked ((mmseqs_search_monomer_actions p ut ue idx idxidx).getD k
        (.rmtree "")) = true →
      (∀ j, j < k → exec j = true) → exec k = false →
      runActions exec (mmseqs_search_monomer_actions p ut ue idx idxidx) =
        ((mmseqs_search_monomer_actions p ut ue idx idxidx).take (k + 1),
          false)) ∧
    (mmseqs_search_monomer_actions p ut ue idx idxidx).getD 4 (.rmtree "") =
      .tool true [.lit "align", .path "prof_res",
        .path (p.uniref_db ++ derived_suffix1 p idx idxidx), .path "res_exp",
        .path "res_exp_realign",
        .lit "--db-load-mode", .num (derived_db_load_mode p idx idxidx),
        .lit "-e", .num (derived_align_eval p),
        .lit "--max-accept", .num (derived_max_accept p),
        .lit "--threads", .num p.threads, .lit "--alt-ali", .lit "10",
        .lit "-a"] ∧
    (∀ exec : Nat → Bool, (∀ j, j < 4 → exec j = true) → exec 4 = false →
      runActions exec (mmseqs_search_monomer_actions p ut ue idx idxidx) =
        ((mmseqs_search_monomer_actions p ut ue idx idxidx).take 5, false)) ∧
    ((mmseqs_search_monomer_actions p ut ue idx idxidx).take 5).all
      (fun a => !(is_removal a)) = true := by
  have habort : ∀ (k : Nat) (exec : Nat → Bool),
      k < (mmseqs_search_monomer_actions p ut ue idx idxidx).length →
      is_checked ((mmseqs_search_monomer_actions p ut ue idx idxidx).getD k
        (.rmtree "")) = true →
      (∀ j, j < k → exec j = true) → exec k = false →
      runActions exec (mmseqs_search_monomer_actions p ut ue idx idxidx) =
        ((mmseqs_search_monomer_actions p ut ue idx idxidx).take (k + 1),
          false) := by
    intro k exec hk hch hpre hf
    apply runFrom_abort exec _ 0 k hk hch
    · intro j hj
      simpa using hpre j hj
    · simpa using hf
  refine ⟨habort, rfl, ?_, rfl⟩
  intro exec hpre hf
  apply habort 4 exec ?_ rfl hpre hf
  rcases ut <;> rcases ue <;> simp [mmseqs_search_monomer_actions]

/-- C4 witness: with an oracle succeeding on the first four invocations and
failing on the REALIGN one, the concrete pipeline stops after five
actions. -/
theorem realign_failure_aborts_monomer_pipeline_witness :
    runActions (fun i => decide (i < 4))
      (mmseqs_search_monomer_actions
        ⟨"uniref30_2302_db", true, 1, 10, 3000, -20, 1000000, some 8, 2, 32⟩
        false false true true) =
      ((mmseqs_search_monomer_actions
        ⟨"uniref30_2302_db", true, 1, 10, 3000, -20, 1000000, some 8, 2, 32⟩
        false false true true).take 5, false) :=
  (realign_failure_aborts_monomer_pipeline
    ⟨"uniref30_2302_db", true, 1, 10, 3000, -20, 1000000, some 8, 2, 32⟩
    false false true true).2.2.1 (fun i => decide (i < 4))
    (by decide) (by decide)

/-- C5: `use_templates` and `use_env` resolve to nothing inside
`mmseqs_search_monomer` — they are not parameters, not module-level names,
not builtins and never assigned — so running the body stops with a
`NameError` on `use_templates` (line 69) having performed zero database
validations and zero Search Capability invocations, for every argument
combination (the embedded name sets do not depend on argument values). -/
theorem mmseqs_search_monomer_body_raises :
    "use_templates" ∉ mmseqs_search_monomer_bound_names ∧
    "use_env" ∉ mmseqs_search_monomer_bound_names ∧
    run_body mmseqs_search_monomer_bound_names mmseqs_search_monomer_body =
      (0, 0, some "use_templates") := by
  decide

/-- C6 counterexample: in the pairing pipeline's cleanup the removal of the
never-created search result `res` (invocation index 7) is a checked call;
an oracle in which exactly that `rmdb` exits non-zero makes the whole run
fail — the pipeline does not itself treat removal of a non-existent
database as a no-op. -/
theorem pair_cleanup_removal_failure_fails_pipeline :
    (runActions (fun i => decide (i ≠ 7))
      (mmseqs_search_pair_actions ⟨"uniref30_2302_db", some 8, 64, 2, 0⟩
        true true)).2 = false := by
  decide

/-- C6 amended: every step of the pairing pipeline, its cleanup removals
included, is a checked invocation; once all invocations succeed the cleanup
removals all run, unconditionally, in program order; but a non-zero exit of
the `rmdb` of the never-created `res` aborts the pipeline, so
removal-of-missing being a no-op is a property the pipeline delegates to
the Search Capability, not one it enforces. -/
theorem pair_cleanup_checked_unconditional (p : PairArgs) (idx idxidx : Bool) :
    (mmseqs_search_pair_actions p idx idxidx).all is_checked = true ∧
    (mmseqs_search_pair_actions p idx idxidx).getD 7 (.rmtree "") =
      .tool true [.lit "rmdb", .path "res"] ∧
    (mmseqs_search_pair_actions p idx idxidx).getD 8 (.rmtree "") =
      .tool true [.lit "rmdb", .path "res_exp"] ∧
    (∀ exec : Nat → Bool, (∀ k, k < 15 → exec k = true) →
      runActions exec (mmseqs_search_pair_actions p idx idxidx) =
        (mmseqs_search_pair_actions p idx idxidx, true)) ∧
    (∀ exec : Nat → Bool, (∀ j, j < 7 → exec j = true) → exec 7 = false →
      runActions exec (mmseqs_search_pair_actions p idx idxidx) =
        ((mmseqs_search_pair_actions p idx idxidx).take 8, false)) := by
  refine ⟨rfl, rfl, rfl, ?_, ?_⟩
  · intro exec h
    apply runFrom_complete
    intro k hk _
    have hk15 : k < 15 := by
      have : (mmseqs_search_pair_actions p idx idxidx).length = 15 := by
        simp [mmseqs_search_pair_actions]
      omega
    simpa using h k hk15
  · intro exec hpre hf
    apply runFrom_abort
    · simp [mmseqs_search_pair_actions]
    · rfl
    · intro j hj
      simpa using hpre j hj
    · simpa using hf

/-- C6 witness: with every invocation succeeding, the concrete pairing
pipeline attempts its complete action list, cleanup removals included. -/
theorem pair_cleanup_checked_unconditional_witness :
    runActions (fun _ => true)
      (mmseqs_search_pair_actions ⟨"uniref30_2302_db", some 8, 64, 2, 0⟩
        true true) =
      (mmseqs_search_pair_actions ⟨"uniref30_2302_db", some 8, 64, 2, 0⟩
        true true, true) :=
  (pair_cleanup_checked_unconditional
    ⟨"uniref30_2302_db", some 8, 64, 2, 0⟩ true true).2.2.2.1
    (fun _ => true) (fun _ _ => rfl)

/-- C7 counterexample: the monomer pipeline's second `rmdb res`
(line 120, invocation index 13, after `unpackdb`) is a checked call; an
oracle in which exactly that removal exits non-zero makes the whole run
fail, so a failure of that intermediate-database removal is propagated,
not merely logged. -/
theorem monomer_post_unpack_removal_failure_propagates :
    (runActions (fun i => decide (i ≠ 13))
      (mmseqs_search_monomer_actions
        ⟨"uniref30_2302_db", true, 1, 10, 3000, -20, 1000000, some 8, 2, 32⟩
        false false true true)).2 = false := by
  decide

/-- C7 amended: the best-effort removals are the bare `subprocess.run`
`rmdb`s of `res_exp` and `res` at invocation indices 7 and 8 — placed
before the `unpackdb` (index 10), not after it — and a failure there never
affects the run: provided all other invocations succeed, the pipeline
completes regardless of the oracle's answers at 7 and 8.  The removals
after `unpackdb` (`final.a3m`, `uniref.a3m`, `res`) are checked: if the
invocations before it succeed and the `rmdb res` at index 13 fails, the run
aborts there. -/
theorem monomer_best_effort_removals_before_unpack (p : MonomerArgs)
    (ut ue idx idxidx : Bool) :
    (mmseqs_search_monomer_actions p ut ue idx idxidx).getD 7 (.rmtree "") =
      .tool false [.lit "rmdb", .path "res_exp"] ∧
    (mmseqs_search_monomer_actions p ut ue idx idxidx).getD 8 (.rmtree "") =
      .tool false [.lit "rmdb", .path "res"] ∧
    (mmseqs_search_monomer_actions p ut ue idx idxidx).getD 10 (.rmtree "") =
      .tool true [.lit "unpackdb", .path "final.a3m", .path ".",
        .lit "--unpack-name-mode", .lit "0", .lit "--unpack-suffix",
        .lit ".a3m"] ∧
    (mmseqs_search_monomer_actions p ut ue idx idxidx).getD 13 (.rmtree "") =
      .tool true [.lit "rmdb", .path "res"] ∧
    (∀ exec : Nat → Bool, (∀ k, k ≠ 7 → k ≠ 8 → exec k = true) →
      runActions exec (mmseqs_search_monomer_actions p ut ue idx idxidx) =
        (mmseqs_search_monomer_actions p ut ue idx idxidx, true)) ∧
    (∀ exec : Nat → Bool, (∀ j, j < 13 → exec j = true) → exec 13 = false →
      runActions exec (mmseqs_search_monomer_actions p ut ue idx idxidx) =
        ((mmseqs_search_monomer_actions p ut ue idx idxidx).take 14, false)) := by
  refine ⟨rfl, rfl, rfl, rfl, ?_, ?_⟩
  · intro exec h
    apply runFrom_complete
    intro k hk hch
    by_cases h7 : k = 7
    · subst h7
      have : is_checked ((mmseqs_search_monomer_actions p ut ue idx idxidx).getD
        7 (.rmtree "")) = false := rfl
      rw [this] at hch
      exact absurd hch (by simp)
    · by_cases h8 : k = 8
      · subst h8
        have : is_checked ((mmseqs_search_monomer_actions p ut ue idx idxidx).getD
          8 (.rmtree "")) = false := rfl
        rw [this] at hch
        exact absurd hch (by simp)
      · simpa using h k h7 h8
  · intro exec hpre hf
    apply runFrom_abort
    · rcases ut <;> rcases ue <;> simp [mmseqs_search_monomer_actions]
    · rfl
    · intro j hj
      simpa using hpre j hj
    · simpa using hf

/-- C7 witness: with every invocation succeeding (in particular the
unchecked removals), the concrete monomer pipeline attempts its complete
action list. -/
theorem monomer_best_effort_removals_witness :
    runActions (fun _ => true)
      (mmseqs_search_monomer_actions
        ⟨"uniref30_2302_db", true, 1, 10, 3000, -20, 1000000, some 8, 2, 32⟩
        false false true true) =
      (mmseqs_search_monomer_actions
        ⟨"uniref30_2302_db", true, 1, 10, 3000, -20, 1000000, some 8, 2, 32⟩
        false false true true, true) :=
  (monomer_best_effort_removals_before_unpack
    ⟨"uniref30_2302_db", true, 1, 10, 3000, -20, 1000000, some 8, 2, 32⟩
    false false true true).2.2.2.2.1 (fun _ => true) (fun _ _ _ => rfl)

/-- C8 counterexample: with the two jobs `("J1", ["A"])` and
`("J2", ["B"])` the canonical query file assigns the header `101` to both
distinct sequences — headers are not unique across jobs. -/
theorem query_headers_not_unique_across_jobs :
    query_fas_records [("J1", ["A"]), ("J2", ["B"])] =
      [(101, "A"), (101, "B")] ∧
    ¬ ((query_fas_records [("J1", ["A"]), ("J2", ["B"])]).map Prod.fst).Nodup := by
  decide

/-- C8 amended: within one job the `j`-th distinct sequence gets the header
`101 + j` — headers start at the fixed offset 101, increment by one per
distinct sequence and are unique within the job — and the offset resets to
101 at each job: a job's records do not depend on the jobs before it
(appending a job appends exactly its own records); headers are therefore
not unique across jobs. -/
theorem query_headers_start_at_101_per_job (seqs : List String) :
    (job_header_records seqs).map Prod.fst =
      (List.range seqs.length).map (fun j => 101 + j) ∧
    ((job_header_records seqs).map Prod.fst).Nodup ∧
    (∀ (jobs : List (String × List String)) (name : String)
       (seqs2 : List String),
      query_fas_records (jobs ++ [(name, seqs2)]) =
        query_fas_records jobs ++ job_header_records seqs2) := by
  have hfst : (job_header_records seqs).map Prod.fst =
      (List.range seqs.length).map (fun j => 101 + j) := by
    rw [job_header_records, List.map_map]
    conv_rhs => rw [← List.enum_map_fst seqs, List.map_map]
    rfl
  refine ⟨hfst, ?_, ?_⟩
  · rw [hfst]
    exact List.Nodup.map (fun a b h => by omega) (List.nodup_range _)
  · intro jobs name seqs2
    simp [query_fas_records, List.map_append]

/-- C9 counterexample: the second `pairaln` invocation of the pairing
pipeline carries no `-e` argument at all (the `-e inf` sits on the `align`
between the two passes). -/
theorem second_pairaln_lacks_evalue :
    Arg.lit "-e" ∉ action_args
      ((mmseqs_search_pair_actions ⟨"uniref30_2302_db", some 8, 64, 2, 0⟩
        true true).getD 2 (.rmtree "")) ∧
    Arg.lit "-e" ∈ action_args
      ((mmseqs_search_pair_actions ⟨"uniref30_2302_db", some 8, 64, 2, 0⟩
        true true).getD 1 (.rmtree "")) := by
  decide

/-- C9 amended: the unbounded e-value cutoff `-e inf` is passed to the
backtrace `align` stage between the two `pairaln` passes; neither `pairaln`
invocation carries an e-value flag; `pairing_strategy` is forwarded
opaquely as `--pairing-mode` to both `pairaln` passes. -/
theorem pair_evalue_and_pairing_mode_placement (p : PairArgs)
    (idx idxidx : Bool) :
    (mmseqs_search_pair_actions p idx idxidx).getD 0 (.rmtree "") =
      .tool true [.lit "pairaln", .path "qdb", .path p.uniref_db,
        .path "res_exp_realign", .path "res_exp_realign_pair",
        .lit "--db-load-mode", .num (pair_db_load_mode p idx idxidx),
        .lit "--pairing-mode", .num p.pairing_strategy,
        .lit "--pairing-dummy-mode", .lit "0", .lit "--threads",
        .num p.threads] ∧
    (mmseqs_search_pair_actions p idx idxidx).getD 1 (.rmtree "") =
      .tool true [.lit "align", .path "qdb",
        .path (p.uniref_db ++ pair_suffix1 p idx idxidx),
        .path "res_exp_realign_pair", .path "res_exp_realign_pair_bt",
        .lit "--db-load-mode", .num (pair_db_load_mode p idx idxidx),
        .lit "-e", .lit "inf", .lit "-a", .lit "--threads", .num p.threads] ∧
    (mmseqs_search_pair_actions p idx idxidx).getD 2 (.rmtree "") =
      .tool true [.lit "pairaln", .path "qdb", .path p.uniref_db,
        .path "res_exp_realign_pair_bt", .path "res_final",
        .lit "--db-load-mode", .num (pair_db_load_mode p idx idxidx),
        .lit "--pairing-mode", .num p.pairing_strategy,
        .lit "--pairing-dummy-mode", .lit "1", .lit "--threads",
        .num p.threads] ∧
    count_lit "-e" (action_args
      ((mmseqs_search_pair_actions p idx idxidx).getD 0 (.rmtree ""))) = 0 ∧
    count_lit "-e" (action_args
      ((mmseqs_search_pair_actions p idx idxidx).getD 2 (.rmtree ""))) = 0 ∧
    count_lit "--pairing-mode" (action_args
      ((mmseqs_search_pair_actions p idx idxidx).getD 0 (.rmtree ""))) = 1 ∧
    count_lit "--pairing-mode" (action_args
      ((mmseqs_search_pair_actions p idx idxidx).getD 2 (.rmtree ""))) = 1 :=
  ⟨rfl, rfl, rfl, rfl, rfl, rfl, rfl⟩

/-- C10: the logical line starting at physical line 187 of
`search_monomer.py` (the string literal after the `get_queries` call of
line 186) is indented deeper than its predecessor without a block opener
before it, so the indentation checker rejects the module at line 187 and
the module does not parse — `main` can never run. -/
theorem search_monomer_module_indentation_error :
    check_indent search_monomer_main_lines = some 187 ∧
    search_monomer_module_parses = false := by
  decide

end ColabFold
